import Mathlib

/-!
Verification of the LooUQ RGB-Indicator driver (TI LP5817 controller).

The development shallowly embeds `src/rgb-indicator.c` together with the
register constants from `rgb-indicator.h`.  Two layers are modelled:

* the bus layer (`BusState`): the sequence of two-byte register writes the
  LP5817 initialization protocol and the color write path issue over I2C.
  Each write's return code is supplied by an environment oracle
  `wr : Nat → Int` giving the result of the k-th write issued
  (`0` success, negative errno on failure), mirroring `i2c_write_dt`;
* the indicator/scheduler layer (`Sys`): the fields of `rgb_indicator_t`
  plus the one-shot timer armed flag, the pending deferred-work flag and
  the trace of color writes (one entry per `lp5817_setColor` call).
-/

/- Register constants from rgb-indicator.h. -/

def LP5817_REG_CHIPENABLE : Nat := 0x00
def LP5817_REG_MAXCURRENT : Nat := 0x01
def LP5817_REG_OUTENABLE : Nat := 0x02
def LP5817_REG_DOTCURRENT_0 : Nat := 0x14
def LP5817_REG_DOTCURRENT_1 : Nat := 0x15
def LP5817_REG_DOTCURRENT_2 : Nat := 0x16
def LP5817_REG_UPDATE : Nat := 0x0f

def LP5817_REG_INTENSITY0 : Nat := 0x18
def LP5817_REG_INTENSITY1 : Nat := 0x19
def LP5817_REG_INTENSITY2 : Nat := 0x1a

def LP5817_CMD_CHIPENABLE : Nat := 0x01
def LP5817_CMD_MAXCURRENT : Nat := 0x01
def LP5817_CMD_OUTENABLE : Nat := 0x07
def LP5817_CMD_UPDATE : Nat := 0x55

/-- Relative brightness of each RGB channel (`const uint8_t dot_current[]`). -/
def dot_current : List Nat := [128, 128, 128]

/-- State of the bus: the trace of (register, value) writes issued so far,
and the count `k` of writes issued (index into the result oracle). -/
structure BusState where
  trace : List (Nat × Nat)
  k : Nat
deriving DecidableEq, Repr

/-- One `i2c_write_dt(rgb_ctrllr, cmd, 2)` call: appends the (register, value)
pair to the trace and returns the oracle's result for this write. -/
def i2c_write_dt (wr : Nat → Int) (s : BusState) (reg val : Nat) : Int × BusState :=
  (wr s.k, { trace := s.trace ++ [(reg, val)], k := s.k + 1 })

/-- Embedding of `lp5817_setColor`: three single-register intensity writes.
Due to the board wiring swap, logical red goes to INTENSITY2, green to
INTENSITY0, blue to INTENSITY1; the local `ret` of the C function is only
used for logging and is dropped here. -/
def lp5817_setColor (wr : Nat → Int) (s : BusState) (red green blue : Nat) : BusState :=
  let p1 := i2c_write_dt wr s LP5817_REG_INTENSITY2 red
  let p2 := i2c_write_dt wr p1.2 LP5817_REG_INTENSITY0 green
  let p3 := i2c_write_dt wr p2.2 LP5817_REG_INTENSITY1 blue
  p3.2

/-- Embedding of `lp5817_init`.  `busReady` models `device_is_ready(bus)`;
when the bus is not ready the C code logs and `return 0` with no writes.
Otherwise the register sequence runs unconditionally; the C local `ret` is
overwritten by every write (the dot-current loop sums its three results,
but that sum is only tested for logging before being overwritten), so the
returned value is the result of the final UPDATE write. -/
def lp5817_init (busReady : Bool) (wr : Nat → Int) : Int × BusState :=
  let s0 : BusState := { trace := [], k := 0 }
  if !busReady then (0, s0)
  else
    let a := i2c_write_dt wr s0 LP5817_REG_CHIPENABLE LP5817_CMD_CHIPENABLE
    let b := i2c_write_dt wr a.2 LP5817_REG_MAXCURRENT LP5817_CMD_MAXCURRENT
    let c0 := i2c_write_dt wr b.2 (LP5817_REG_DOTCURRENT_0 + 0) (dot_current.getD 0 0)
    let c1 := i2c_write_dt wr c0.2 (LP5817_REG_DOTCURRENT_0 + 1) (dot_current.getD 1 0)
    let c2 := i2c_write_dt wr c1.2 (LP5817_REG_DOTCURRENT_0 + 2) (dot_current.getD 2 0)
    let d := i2c_write_dt wr c2.2 LP5817_REG_OUTENABLE LP5817_CMD_OUTENABLE
    let e := lp5817_setColor wr d.2 0 0 0
    let f := i2c_write_dt wr e LP5817_REG_UPDATE LP5817_CMD_UPDATE
    (f.1, f.2)

/-- Embedding of `rgbi_init`: `ret = -1; if (lp5817_init(dev) == 0) ret = 0;`
(the timer/work initialization has no bus effect). -/
def rgbi_init (busReady : Bool) (wr : Nat → Int) : Int × BusState :=
  let r := lp5817_init busReady wr
  if r.1 = 0 then (0, r.2) else (-1, r.2)

/-- C2: evaluation of initialization when the bus endpoint is not ready.
The claim asks for a non-success result with no bus writes; the code does
issue no writes, but `lp5817_init` executes `return 0` — the documented
success code — so `rgbi_init` also reports success (0), contradicting the
claim's (and the function's own documentation's) required failure result. -/
theorem rgbi_init_not_ready_returns_success :
    (rgbi_init false (fun _ => 0)).1 = 0 ∧ (rgbi_init false (fun _ => 0)).2.trace = [] :=
  ⟨rfl, rfl⟩

/-- C7 counterexample: with a ready bus (all writes succeeding), the
initialization sequence does not issue 9 register writes. -/
theorem lp5817_init_write_count_not_nine :
    ¬ (lp5817_init true (fun _ => 0)).2.trace.length = 9 := by decide

/-- C7 (amended): with a ready bus, initialization issues exactly 10
two-byte register writes, in the fixed order chip-enable, max-current,
three dot-current (channels 0,1,2), output-enable, three zero intensity
writes (in the remapped order INTENSITY2, INTENSITY0, INTENSITY1), update —
regardless of the result of any individual write. -/
theorem lp5817_init_write_sequence (wr : Nat → Int) :
    (lp5817_init true wr).2.trace =
      [(LP5817_REG_CHIPENABLE, LP5817_CMD_CHIPENABLE),
       (LP5817_REG_MAXCURRENT, LP5817_CMD_MAXCURRENT),
       (LP5817_REG_DOTCURRENT_0, 128),
       (LP5817_REG_DOTCURRENT_1, 128),
       (LP5817_REG_DOTCURRENT_2, 128),
       (LP5817_REG_OUTENABLE, LP5817_CMD_OUTENABLE),
       (LP5817_REG_INTENSITY2, 0),
       (LP5817_REG_INTENSITY0, 0),
       (LP5817_REG_INTENSITY1, 0),
       (LP5817_REG_UPDATE, LP5817_CMD_UPDATE)] := rfl

/-- C5 counterexample: if the very first write (chip-enable) fails with
errno -5 while every later write succeeds, one write of the sequence
failed, yet `lp5817_init` returns 0 (success) — so the overall result is
not a failure whenever one or more writes failed. -/
theorem lp5817_init_early_failure_reports_success :
    (lp5817_init true (fun k => if k = 0 then (-5 : Int) else 0)).1 = 0 ∧
    (fun k => if k = 0 then (-5 : Int) else 0) 0 ≠ 0 :=
  ⟨rfl, by decide⟩

/-- C5 (amended): initialization never aborts on a failed write — all 10
register writes of the sequence execute whatever the individual results —
and its overall result is exactly the result of the final UPDATE write
(the 10th write, oracle index 9): it reports failure iff that last write
failed, not iff one or more writes failed. -/
theorem lp5817_init_no_abort_result_last (wr : Nat → Int) :
    (lp5817_init true wr).2.trace.length = 10 ∧ (lp5817_init true wr).1 = wr 9 :=
  ⟨rfl, rfl⟩

/-- C8: the color write path performs exactly three single-register writes,
mapping logical red to intensity register 2 (0x1a), logical green to
intensity register 0 (0x18) and logical blue to intensity register 1
(0x19), each carrying its 8-bit value unchanged. -/
theorem lp5817_setColor_remap (wr : Nat → Int) (s : BusState) (red green blue : Nat)
    (hr : red < 256) (hg : green < 256) (hb : blue < 256) :
    (lp5817_setColor wr s red green blue).trace =
      s.trace ++ [(LP5817_REG_INTENSITY2, red),
                  (LP5817_REG_INTENSITY0, green),
                  (LP5817_REG_INTENSITY1, blue)] := by
  simp [lp5817_setColor, i2c_write_dt]

/-- C8 witness: the remap theorem evaluated at the concrete triple (7,5,9)
starting from an empty bus trace. -/
theorem lp5817_setColor_remap_witness :
    (7 : Nat) < 256 ∧ (5 : Nat) < 256 ∧ (9 : Nat) < 256 ∧
    (lp5817_setColor (fun _ => 0) { trace := [], k := 0 } 7 5 9).trace =
      [(LP5817_REG_INTENSITY2, 7),
       (LP5817_REG_INTENSITY0, 5),
       (LP5817_REG_INTENSITY1, 9)] :=
  ⟨by decide, by decide, by decide,
   by simpa using
     lp5817_setColor_remap (fun _ => 0) { trace := [], k := 0 } 7 5 9
       (by decide) (by decide) (by decide)⟩

/- Scheduler layer: the rgb_indicator_t object, the one-shot timer and the
deferred work item.  Color writes are traced at `lp5817_setColor`-call
granularity: one `led_rgb` entry per call (each such call is the three
register writes proved in `lp5817_setColor_remap`). -/

/-- The `struct led_rgb` triple (fields are uint8 in C). -/
structure led_rgb where
  r : Nat
  g : Nat
  b : Nat
deriving DecidableEq, Repr

/-- All-channels-zero triple, the off color. -/
def ledOff : led_rgb := ⟨0, 0, 0⟩

/-- State of one indicator: the `rgb_indicator_t` fields that the scheduler
reads or writes, plus the timer armed flag (the one-shot `k_timer`), the
pending flag of the deferred work item, and the color-write trace.
`onDuration`/`offDuration` are tick counts (`k_timeout_t.ticks`,
`K_NO_WAIT` = 0); `flashesAsked`, `flashesPerformed` and `flashState` are
uint8 fields, modelled as Nat with reduction mod 256 where written. -/
structure Sys where
  pixels : led_rgb
  flashesAsked : Nat
  flashesPerformed : Nat
  onDuration : Nat
  offDuration : Nat
  flashState : Nat
  timerArmed : Bool
  workPending : Bool
  writes : List led_rgb
deriving DecidableEq, Repr

/-- Embedding of `rgbi_setColor`: one `lp5817_setColor` call with the
triple's channels, recorded as one trace entry. -/
def rgbi_setColor (s : Sys) (channels : led_rgb) : Sys :=
  { s with writes := s.writes ++ [channels] }

/-- Embedding of `rgbi_setColorFromPixels`: one `lp5817_setColor` call with
three channel values. -/
def rgbi_setColorFromPixels (s : Sys) (red green blue : Nat) : Sys :=
  rgbi_setColor s ⟨red, green, blue⟩

/-- Embedding of `isFlashing`: `rgbi->onDuration.ticks > 0`. -/
def isFlashing (s : Sys) : Bool := decide (0 < s.onDuration)

/-- Embedding of `rgbi_isBusy`. -/
def rgbi_isBusy (s : Sys) : Bool := isFlashing s

/-- Embedding of `rgbi_off`: writes (0,0,0) only when no flash sequence is
underway. -/
def rgbi_off (s : Sys) : Sys :=
  if isFlashing s then s else rgbi_setColorFromPixels s 0 0 0

/-- Embedding of `k_timer_start`: arms the one-shot timer (the duration
argument only affects real time, which the claims do not mention). -/
def k_timer_start (s : Sys) : Sys := { s with timerArmed := true }

/-- Embedding of `k_timer_stop`. -/
def k_timer_stop (s : Sys) : Sys := { s with timerArmed := false }

/-- Embedding of `rgbi_flash`: store parameters (count is a uint8), copy the
pixels, issue the initial ON color write, start the timer with onDuration,
set flashState = 1. -/
def rgbi_flash (s : Sys) (pixels : led_rgb) (onDuration offDuration count : Nat) : Sys :=
  let s1 := { s with onDuration := onDuration, offDuration := offDuration,
                     flashesAsked := count % 256, flashesPerformed := 0,
                     pixels := pixels }
  let s2 := rgbi_setColor s1 pixels
  let s3 := k_timer_start s2
  { s3 with flashState := 1 }

/-- Embedding of `rgbi_cancel`: stop the timer, clear onDuration (K_NO_WAIT),
then `rgbi_off` (which now sees an idle indicator and writes (0,0,0)). -/
def rgbi_cancel (s : Sys) : Sys :=
  rgbi_off { (k_timer_stop s) with onDuration := 0 }

/-- Embedding of `flashDisplay_handler`, the deferred-worker body. -/
def flashDisplay_handler (s : Sys) : Sys :=
  if 0 < s.onDuration then
    if s.flashState ≠ 0 then
      let s1 := rgbi_setColorFromPixels s 0 0 0
      let s2 := { s1 with flashState := 0,
                          flashesPerformed := (s1.flashesPerformed + 1) % 256 }
      if s2.flashesPerformed < s2.flashesAsked ∨ s2.flashesAsked = 0 then
        k_timer_start s2
      else
        { s2 with flashesAsked := 0, flashesPerformed := 0, onDuration := 0 }
    else
      let s1 := { s with flashState := 1 }
      if s1.flashesPerformed < s1.flashesAsked then
        k_timer_start (rgbi_setColor s1 s1.pixels)
      else s1
  else s

/-- Embedding of `flashTimerExpiry`, the timer ISR: `k_work_submit` only
(idempotent when the item is already pending); no state mutation, no bus
write. -/
def flashTimerExpiry (s : Sys) : Sys := { s with workPending := true }

/-- Environment step relation: a timer expiry can occur only while the
one-shot timer is armed (consuming it and running the ISR); the deferred
worker can run only while its work item is pending (consuming the pending
flag and running `flashDisplay_handler`). -/
inductive Step : Sys → Sys → Prop
  | timer (s : Sys) (h : s.timerArmed = true) :
      Step s (flashTimerExpiry { s with timerArmed := false })
  | work (s : Sys) (h : s.workPending = true) :
      Step s (flashDisplay_handler { s with workPending := false })

/-- One timer-expiry followed by the deferred worker run it enqueued: the
expiry consumes the armed timer and sets the work pending, the worker
consumes the pending flag and runs the handler. -/
def tick (s : Sys) : Sys :=
  flashDisplay_handler { s with timerArmed := false, workPending := false }

/-- Iterated expiry/worker steps. -/
def tickIter : Nat → Sys → Sys
  | 0, s => s
  | n + 1, s => tickIter n (tick s)

/-- Justification that `tick` is the composition of the two `Step` moves
whenever the timer is armed and no work is pending. -/
theorem tick_is_two_steps (s : Sys) (hT : s.timerArmed = true) (hW : s.workPending = false) :
    Step s (flashTimerExpiry { s with timerArmed := false }) ∧
    Step (flashTimerExpiry { s with timerArmed := false }) (tick s) :=
  ⟨Step.timer s hT, Step.work _ rfl⟩

theorem tickIter_add_two (n : Nat) (s : Sys) :
    tickIter (n + 2) s = tickIter n (tick (tick s)) := rfl

/-- Handler guard: a worker run that observes the idle sentinel does
nothing at all. -/
theorem flashDisplay_handler_idle (s : Sys) (h : s.onDuration = 0) :
    flashDisplay_handler s = s := by
  simp [flashDisplay_handler, h]

/-- Computed form of `rgbi_cancel`: it disarms the timer, zeroes onDuration
and appends exactly one (0,0,0) write, leaving every other field alone. -/
theorem rgbi_cancel_eq (s : Sys) :
    rgbi_cancel s =
      { s with timerArmed := false, onDuration := 0, writes := s.writes ++ [ledOff] } := by
  simp [rgbi_cancel, rgbi_off, k_timer_stop, isFlashing,
        rgbi_setColorFromPixels, rgbi_setColor, ledOff]

/-- Shape of a state in the ON phase of a counted sequence: asked N pulses,
p on-pulses already completed, timer armed, worker idle. -/
def onPhase (pix : led_rgb) (onD offD N p : Nat) (W : List led_rgb) : Sys :=
  { pixels := pix, flashesAsked := N, flashesPerformed := p,
    onDuration := onD, offDuration := offD, flashState := 1,
    timerArmed := true, workPending := false, writes := W }

/-- Shape of the terminal state of a counted sequence: counters cleared,
idle sentinel set, timer disarmed, worker idle. -/
def idleEnd (pix : led_rgb) (offD : Nat) (W : List led_rgb) : Sys :=
  { pixels := pix, flashesAsked := 0, flashesPerformed := 0,
    onDuration := 0, offDuration := offD, flashState := 0,
    timerArmed := false, workPending := false, writes := W }

/-- Expected write trace of a counted flash of n pulses: on, off, on, off,
…, strictly alternating, starting with the on color, n of each. -/
def flashTrace : Nat → led_rgb → List led_rgb
  | 0, _ => []
  | n + 1, pix => pix :: ledOff :: flashTrace n pix

/-- Writes produced by the expiry/worker steps themselves (everything after
the initial ON write that `rgbi_flash` issues): off, on, off, …, off. -/
def offTail : Nat → led_rgb → List led_rgb
  | 0, _ => [ledOff]
  | d + 1, pix => ledOff :: pix :: offTail d pix

theorem flashTrace_cons_offTail (pix : led_rgb) :
    ∀ d, pix :: offTail d pix = flashTrace (d + 1) pix := by
  intro d
  induction d with
  | zero => rfl
  | succ d ih =>
      show pix :: ledOff :: pix :: offTail d pix = pix :: ledOff :: flashTrace (d + 1) pix
      rw [ih]

/-- Last expiry/worker step of a counted sequence: from the ON phase with
one pulse left, the worker writes the off color, finds the count met, and
resets to idle. -/
theorem tick_on_last (pix : led_rgb) (onD offD N p : Nat) (W : List led_rgb)
    (hOn : 0 < onD) (hN : N < 256) (hp : p + 1 = N) :
    tick (onPhase pix onD offD N p W) = idleEnd pix offD (W ++ [ledOff]) := by
  have h1 : (p + 1) % 256 = N := by omega
  have hg : ¬ (N < N ∨ N = 0) := by omega
  have hN0 : ¬ N = 0 := by omega
  simp [tick, onPhase, idleEnd, flashDisplay_handler, rgbi_setColorFromPixels,
        rgbi_setColor, k_timer_start, ledOff, hOn, h1, hg, hN0]

/-- Middle pair of expiry/worker steps of a counted sequence: from the ON
phase with more than one pulse left, the worker writes the off color and
rearms for the OFF wait, then the next expiry's worker writes the on color
and rearms for the ON wait. -/
theorem tick_on_pair (pix : led_rgb) (onD offD N p : Nat) (W : List led_rgb)
    (hOn : 0 < onD) (hN : N < 256) (hp : p + 1 < N) :
    tick (tick (onPhase pix onD offD N p W)) =
      onPhase pix onD offD N (p + 1) (W ++ [ledOff, pix]) := by
  have h1 : (p + 1) % 256 = p + 1 := by omega
  have hg : (p + 1) < N ∨ N = 0 := Or.inl hp
  simp [tick, onPhase, flashDisplay_handler, rgbi_setColorFromPixels,
        rgbi_setColor, k_timer_start, ledOff, hOn, h1, hg, hp]

/-- Full run of a counted sequence from an ON-phase state with d+1 pulses
left: 2d+1 expiry/worker steps reach the idle terminal state, appending
the off, on, off, …, off tail to the trace. -/
theorem tickIter_on_phase (pix : led_rgb) (onD offD N : Nat) (hOn : 0 < onD) (hN : N < 256) :
    ∀ d p W, p + d + 1 = N →
      tickIter (2 * d + 1) (onPhase pix onD offD N p W) =
        idleEnd pix offD (W ++ offTail d pix) := by
  intro d
  induction d with
  | zero =>
      intro p W hp
      show tick (onPhase pix onD offD N p W) = idleEnd pix offD (W ++ offTail 0 pix)
      exact tick_on_last pix onD offD N p W hOn hN (by omega)
  | succ d ih =>
      intro p W hp
      have e1 : 2 * (d + 1) + 1 = 2 * d + 1 + 2 := by omega
      rw [e1, tickIter_add_two,
          tick_on_pair pix onD offD N p W hOn hN (by omega),
          ih (p + 1) (W ++ [ledOff, pix]) (by omega)]
      simp [offTail]

/-- A flash request from a worker-idle state lands exactly in the ON-phase
shape: parameters stored (count is a uint8), the initial ON write issued,
the timer armed. -/
theorem rgbi_flash_eq_onPhase (s0 : Sys) (pix : led_rgb) (onD offD N : Nat)
    (hPend : s0.workPending = false) (hN : N < 256) :
    rgbi_flash s0 pix onD offD N = onPhase pix onD offD N 0 (s0.writes ++ [pix]) := by
  simp [rgbi_flash, onPhase, rgbi_setColor, k_timer_start, Nat.mod_eq_of_lt hN, hPend]

/-- C1: for every flash request with onDuration > 0 and uint8 count N > 0
issued while no deferred work is pending, `rgbi_flash` followed by the
2N-1 timer-expiry/deferred-worker steps produces exactly the trace of N
on-color writes and N all-zero writes in strict alternation starting with
on, and ends in the idle state (flashesAsked = 0, flashesPerformed = 0,
onDuration = 0, so `rgbi_isBusy` is false) from which no further step —
hence no further timer-originated write — is possible. -/
theorem rgbi_flash_counted_spec (s0 : Sys) (pix : led_rgb) (onD offD N : Nat)
    (hPend : s0.workPending = false) (hOn : 0 < onD) (hpos : 0 < N) (hN : N < 256) :
    tickIter (2 * (N - 1) + 1) (rgbi_flash s0 pix onD offD N) =
      idleEnd pix offD (s0.writes ++ flashTrace N pix) ∧
    rgbi_isBusy (tickIter (2 * (N - 1) + 1) (rgbi_flash s0 pix onD offD N)) = false ∧
    ∀ t, ¬ Step (tickIter (2 * (N - 1) + 1) (rgbi_flash s0 pix onD offD N)) t := by
  have h3 : pix :: offTail (N - 1) pix = flashTrace N pix := by
    have h4 := flashTrace_cons_offTail pix (N - 1)
    rwa [Nat.sub_add_cancel hpos] at h4
  have hrun : tickIter (2 * (N - 1) + 1) (rgbi_flash s0 pix onD offD N) =
      idleEnd pix offD (s0.writes ++ flashTrace N pix) := by
    rw [rgbi_flash_eq_onPhase s0 pix onD offD N hPend hN,
        tickIter_on_phase pix onD offD N hOn hN (N - 1) 0 (s0.writes ++ [pix]) (by omega),
        List.append_assoc, List.singleton_append, h3]
  refine ⟨hrun, ?_, ?_⟩
  · rw [hrun]
    simp [rgbi_isBusy, isFlashing, idleEnd]
  · intro t hstep
    rw [hrun] at hstep
    cases hstep with
    | timer h => simp [idleEnd] at h
    | work h => simp [idleEnd] at h

/-- Concrete idle indicator used by the scheduler witnesses. -/
def sysStart : Sys :=
  { pixels := ledOff, flashesAsked := 0, flashesPerformed := 0, onDuration := 0,
    offDuration := 0, flashState := 0, timerArmed := false, workPending := false,
    writes := [] }

/-- C1 witness: the counted-flash theorem evaluated at color (9,8,7),
onDuration 2, offDuration 3, count 2. -/
theorem rgbi_flash_counted_spec_witness :
    sysStart.workPending = false ∧ (0 : Nat) < 2 ∧ (0 : Nat) < 2 ∧ (2 : Nat) < 256 ∧
    (tickIter (2 * (2 - 1) + 1) (rgbi_flash sysStart ⟨9, 8, 7⟩ 2 3 2) =
       idleEnd ⟨9, 8, 7⟩ 3 (sysStart.writes ++ flashTrace 2 ⟨9, 8, 7⟩) ∧
     rgbi_isBusy (tickIter (2 * (2 - 1) + 1) (rgbi_flash sysStart ⟨9, 8, 7⟩ 2 3 2)) = false ∧
     ∀ t, ¬ Step (tickIter (2 * (2 - 1) + 1) (rgbi_flash sysStart ⟨9, 8, 7⟩ 2 3 2)) t) :=
  ⟨rfl, by decide, by decide, by decide,
   rgbi_flash_counted_spec sysStart ⟨9, 8, 7⟩ 2 3 2 rfl (by decide) (by decide) (by decide)⟩

/-- Worker preservation of the busy sentinel in continuous mode: whatever
branch the handler takes, it never writes the idle sentinel when
flashesAsked = 0 (the reset branch is unreachable because its guard
`performed < asked OR asked == 0` is true whenever asked = 0). -/
theorem handler_keeps_duration_continuous (s : Sys) (hAsk : s.flashesAsked = 0) :
    (flashDisplay_handler s).onDuration = s.onDuration := by
  by_cases hOn : 0 < s.onDuration
  · by_cases hf : s.flashState = 0
    · simp [flashDisplay_handler, rgbi_setColorFromPixels, rgbi_setColor,
            k_timer_start, hAsk, hOn, hf]
    · simp [flashDisplay_handler, rgbi_setColorFromPixels, rgbi_setColor,
            k_timer_start, hAsk, hOn, hf]
  · simp [flashDisplay_handler, hOn]

/-- C3: in a continuous sequence (flashesAsked = 0 sentinel) no
timer-expiry or deferred-worker step ever clears the busy sentinel —
onDuration is preserved, so `rgbi_isBusy` stays true — while `rgbi_cancel`
does return the indicator to idle (`rgbi_isBusy` false). -/
theorem rgbi_continuous_stays_busy (s t : Sys) (hAsk : s.flashesAsked = 0)
    (hBusy : 0 < s.onDuration) (hStep : Step s t) :
    t.onDuration = s.onDuration ∧ rgbi_isBusy t = true ∧
    rgbi_isBusy (rgbi_cancel s) = false := by
  have hdur : t.onDuration = s.onDuration := by
    cases hStep with
    | timer h => rfl
    | work h => exact handler_keeps_duration_continuous { s with workPending := false } hAsk
  refine ⟨hdur, ?_, ?_⟩
  · simp [rgbi_isBusy, isFlashing, hdur, hBusy]
  · rw [rgbi_cancel_eq]
    simp [rgbi_isBusy, isFlashing]

/-- Concrete continuous-mode state in the ON phase with a pending deferred
work item, used by the continuous-mode witnesses. -/
def sysContinuous : Sys :=
  { pixels := ⟨3, 4, 5⟩, flashesAsked := 0, flashesPerformed := 0, onDuration := 1,
    offDuration := 1, flashState := 1, timerArmed := false, workPending := true,
    writes := [] }

/-- C3 witness: a deferred-worker step from the concrete continuous-mode
state keeps the indicator busy, and cancelling it idles it. -/
theorem rgbi_continuous_stays_busy_witness :
    sysContinuous.flashesAsked = 0 ∧ 0 < sysContinuous.onDuration ∧
    Step sysContinuous (flashDisplay_handler { sysContinuous with workPending := false }) ∧
    ((flashDisplay_handler { sysContinuous with workPending := false }).onDuration =
       sysContinuous.onDuration ∧
     rgbi_isBusy (flashDisplay_handler { sysContinuous with workPending := false }) = true ∧
     rgbi_isBusy (rgbi_cancel sysContinuous) = false) :=
  ⟨rfl, by decide, Step.work _ rfl,
   rgbi_continuous_stays_busy sysContinuous _ rfl (by decide) (Step.work _ rfl)⟩

/-- C4: in a continuous sequence, once the worker is in the OFF phase
(flashState = 0), the guard `flashesPerformed < flashesAsked` is false
(nothing is below 0), so a subsequent worker run issues no on-color write
and does not rearm the timer. -/
theorem rgbi_continuous_off_phase_stalls (s : Sys) (hAsk : s.flashesAsked = 0)
    (hOn : 0 < s.onDuration) (hPh : s.flashState = 0) :
    ¬ s.flashesPerformed < s.flashesAsked ∧
    (flashDisplay_handler s).writes = s.writes ∧
    (flashDisplay_handler s).timerArmed = s.timerArmed := by
  have hg : ¬ s.flashesPerformed < s.flashesAsked := by
    rw [hAsk]
    omega
  refine ⟨hg, ?_, ?_⟩ <;>
    simp [flashDisplay_handler, hOn, hPh, hg]

/-- Concrete continuous-mode state in the OFF phase, one pulse performed. -/
def sysOffPhase : Sys :=
  { pixels := ⟨1, 2, 3⟩, flashesAsked := 0, flashesPerformed := 1, onDuration := 2,
    offDuration := 2, flashState := 0, timerArmed := false, workPending := false,
    writes := [] }

/-- C4 witness: the stall theorem evaluated at the concrete OFF-phase
continuous state. -/
theorem rgbi_continuous_off_phase_stalls_witness :
    sysOffPhase.flashesAsked = 0 ∧ 0 < sysOffPhase.onDuration ∧
    sysOffPhase.flashState = 0 ∧
    (¬ sysOffPhase.flashesPerformed < sysOffPhase.flashesAsked ∧
     (flashDisplay_handler sysOffPhase).writes = sysOffPhase.writes ∧
     (flashDisplay_handler sysOffPhase).timerArmed = sysOffPhase.timerArmed) :=
  ⟨rfl, by decide, rfl,
   rgbi_continuous_off_phase_stalls sysOffPhase rfl (by decide) rfl⟩

/-- C6: `rgbi_cancel`, called in any state, appends exactly one final
(0,0,0) color write, disarms the timer and clears onDuration, and from the
cancelled state every still-possible step (in particular a stale deferred
work item) issues no further write. -/
theorem rgbi_cancel_stops_and_writes_off (s : Sys) :
    (rgbi_cancel s).writes = s.writes ++ [ledOff] ∧
    (rgbi_cancel s).timerArmed = false ∧
    (rgbi_cancel s).onDuration = 0 ∧
    ∀ t, Step (rgbi_cancel s) t → t.writes = (rgbi_cancel s).writes := by
  rw [rgbi_cancel_eq]
  refine ⟨rfl, rfl, rfl, ?_⟩
  intro t hstep
  cases hstep with
  | timer h => simp at h
  | work h => rw [flashDisplay_handler_idle _ rfl]

/-- Concrete flashing state with an armed timer and a pending deferred work
item, used by the cancellation witnesses. -/
def sysPending : Sys :=
  { pixels := ⟨3, 4, 5⟩, flashesAsked := 0, flashesPerformed := 1, onDuration := 2,
    offDuration := 2, flashState := 1, timerArmed := true, workPending := true,
    writes := [] }

/-- C6 witness: cancelling the concrete flashing state appends the single
off write, disarms and idles, and the stale worker step after it adds no
write. -/
theorem rgbi_cancel_stops_and_writes_off_witness :
    (rgbi_cancel sysPending).writes = sysPending.writes ++ [ledOff] ∧
    (rgbi_cancel sysPending).timerArmed = false ∧
    (rgbi_cancel sysPending).onDuration = 0 ∧
    (flashDisplay_handler { rgbi_cancel sysPending with workPending := false }).writes =
      (rgbi_cancel sysPending).writes :=
  ⟨(rgbi_cancel_stops_and_writes_off sysPending).1,
   (rgbi_cancel_stops_and_writes_off sysPending).2.1,
   (rgbi_cancel_stops_and_writes_off sysPending).2.2.1,
   (rgbi_cancel_stops_and_writes_off sysPending).2.2.2 _ (Step.work _ rfl)⟩

/-- C9: while a flash sequence is active (`rgbi_isBusy` true), `rgbi_off`
is a complete no-op: it returns the state unchanged — zero bus writes and
no indicator field mutated. -/
theorem rgbi_off_noop_when_busy (s : Sys) (h : rgbi_isBusy s = true) :
    rgbi_off s = s := by
  simp only [rgbi_isBusy] at h
  simp [rgbi_off, h]

/-- C9 witness: `rgbi_off` on the concrete busy state is the identity. -/
theorem rgbi_off_noop_when_busy_witness :
    rgbi_isBusy sysContinuous = true ∧ rgbi_off sysContinuous = sysContinuous :=
  ⟨by decide, rgbi_off_noop_when_busy sysContinuous (by decide)⟩

/-- C10: any step still possible immediately after `rgbi_cancel` (only a
stale deferred work item enqueued before the cancel — the timer is
disarmed) runs the handler against the idle sentinel and reduces to
clearing the pending flag: no bus write, no indicator field mutated, no
timer restart. -/
theorem rgbi_stale_work_after_cancel (s t : Sys) (hStep : Step (rgbi_cancel s) t) :
    t = { rgbi_cancel s with workPending := false } := by
  cases hStep with
  | timer h =>
      rw [rgbi_cancel_eq] at h
      simp at h
  | work h =>
      exact flashDisplay_handler_idle _ (by rw [rgbi_cancel_eq])

/-- C10 witness: the stale-worker step after cancelling the concrete
flashing state exists and only clears the pending flag. -/
theorem rgbi_stale_work_after_cancel_witness :
    Step (rgbi_cancel sysPending)
      (flashDisplay_handler { rgbi_cancel sysPending with workPending := false }) ∧
    flashDisplay_handler { rgbi_cancel sysPending with workPending := false } =
      { rgbi_cancel sysPending with workPending := false } :=
  ⟨Step.work _ rfl, rgbi_stale_work_after_cancel sysPending _ (Step.work _ rfl)⟩
